import Mathlib

/-!
Shallow embedding of the input-normalization state machine of
`src/platform_impl/macos/view.rs` and the event-loop proxy of
`src/platform_impl/ios/event_loop.rs`.

Conventions of the embedding:
* `f64`/`f32` coordinates and deltas are modelled as `Rat`.
* The scancode-to-keycode translation table (`KeyCode::from_scancode`,
  `code_to_key`) is an external collaborator (spec section 1); callbacks carry
  the already-translated `KeyCode`.
* Objective-C FFI plumbing (`ns_window`, tracking rects, cursor state,
  `markedText` ivar contents, `ime_spot`) does not influence the control flow
  of any claim and is omitted from `ViewState`.
* `AppState::queue_event` is modelled by returning the list of queued events
  in order.
-/

namespace Tao

/-- Physical key codes; only the keys the view code inspects are named, the
rest are `other n`. -/
inductive KeyCode
  | ShiftLeft | ShiftRight
  | ControlLeft | ControlRight
  | AltLeft | AltRight
  | SuperLeft | SuperRight
  | KeyA
  | ArrowUp | ArrowDown | ArrowLeft | ArrowRight
  | Period
  | other (n : Nat)
deriving DecidableEq, Repr

/-- `ElementState` from `crate::event`. -/
inductive ElementState
  | Pressed
  | Released
deriving DecidableEq, Repr

/-- `MouseButton` from `crate::event`. -/
inductive MouseButton
  | Left | Right | Middle
  | Other (n : Nat)
deriving DecidableEq, Repr

/-- `MouseScrollDelta` from `crate::event` (f64/f32 payloads as `Rat`). -/
inductive MouseScrollDelta
  | LineDelta (x y : Rat)
  | PixelDelta (x y : Rat)
deriving DecidableEq, Repr

/-- `TouchPhase` from `crate::event` (the three values `scroll_wheel` maps to). -/
inductive TouchPhase
  | Started | Moved | Ended
deriving DecidableEq, Repr

/-- The raw `NSEventPhase` values matched in `scroll_wheel`. -/
inductive NSEventPhase
  | MayBegin | Began | Changed | Stationary | Ended | Cancelled | NoPhase
deriving DecidableEq, Repr

/-- `ModifiersState` from `crate::keyboard`: the SHIFT/CONTROL/ALT/SUPER
bitflags as four booleans. -/
structure ModifiersState where
  shift : Bool := false
  control : Bool := false
  alt : Bool := false
  superKey : Bool := false
deriving DecidableEq, Repr

/-- The four modifier families processed by `flags_changed`
(tao flag together with its `NSEventModifierFlags` bit). -/
inductive ModFamily
  | shift | control | alt | command
deriving DecidableEq, Repr

/-- `state.modifiers.insert($tao_flag)` / `.remove($tao_flag)` expressed as
setting the family's bit to `b`. -/
def ModifiersState.setFamily (m : ModifiersState) : ModFamily → Bool → ModifiersState
  | ModFamily.shift, b => { m with shift := b }
  | ModFamily.control, b => { m with control := b }
  | ModFamily.alt, b => { m with alt := b }
  | ModFamily.command, b => { m with superKey := b }

/-- Window events queued by the view callbacks (fields not inspected by any
claim, such as `device_id` and `is_synthetic`, are elided). -/
inductive WindowEvent
  | KeyboardInput (key : KeyCode) (state : ElementState)
  | ModifiersChanged (m : ModifiersState)
  | ReceivedImeText (s : List Char)
  | CursorMoved (x y : Rat) (mods : ModifiersState)
  | MouseInput (button : MouseButton) (state : ElementState) (mods : ModifiersState)
  | MouseWheel (delta : MouseScrollDelta) (phase : TouchPhase) (mods : ModifiersState)
  | TouchpadPressure (pressure : Rat) (stage : Int)
deriving DecidableEq, Repr

/-- Device events queued by the view callbacks. -/
inductive DeviceEvent
  | MouseWheel (delta : MouseScrollDelta)
deriving DecidableEq, Repr

/-- Events pushed through `AppState::queue_event`. -/
inductive Event
  | window (e : WindowEvent)
  | device (e : DeviceEvent)
deriving DecidableEq, Repr

/-- The fields of `ViewState` that drive the input state machine. -/
structure ViewState where
  in_ime_preedit : Bool
  key_triggered_ime : Bool
  is_key_down : Bool
  modifiers : ModifiersState
  phys_modifiers : List KeyCode
deriving DecidableEq, Repr

/-- The state installed by `new_view`. -/
def initialViewState : ViewState :=
  { in_ime_preedit := false
    key_triggered_ime := false
    is_key_down := false
    modifiers := {}
    phys_modifiers := [] }

/-- `HashSet::insert` on the physically-down set. -/
def insertKey (k : KeyCode) (l : List KeyCode) : List KeyCode :=
  if k ∈ l then l else k :: l

/-- `HashSet::remove` on the physically-down set. -/
def removeKey (k : KeyCode) (l : List KeyCode) : List KeyCode :=
  l.filter (fun x => x ≠ k)

/-- A `flagsChanged:` callback: the keycode translated from the event's
scancode, plus the four `NSEventModifierFlags` bits read by the macro. -/
structure FlagsChangedEvent where
  key : KeyCode
  shiftFlag : Bool
  controlFlag : Bool
  optionFlag : Bool
  commandFlag : Bool
deriving DecidableEq, Repr

/-- `NSEvent::modifierFlags(ns_event).contains($ns_flag)` for each family. -/
def familyBit (e : FlagsChangedEvent) : ModFamily → Bool
  | ModFamily.shift => e.shiftFlag
  | ModFamily.control => e.controlFlag
  | ModFamily.alt => e.optionFlag
  | ModFamily.command => e.commandFlag

/-- One expansion of the `process_event!` macro in `flags_changed`
(`view.rs` lines 770-821) for family `fam` with physical target `target`.
Returns the updated state and the key events pushed for this expansion. -/
def process_event (e : FlagsChangedEvent) (fam : ModFamily) (target : KeyCode)
    (st : ViewState) : ViewState × List Event :=
  let nsContains : Bool := familyBit e fam
  let wasPressed : Bool := decide (e.key ∈ st.phys_modifiers)
  let remapped : Bool := decide (e.key = KeyCode.KeyA)
  let actualKey : KeyCode := if remapped then target else e.key
  let matchingKeys : Bool := remapped || decide (e.key = target)
  let isPressed : Bool :=
    if remapped then nsContains
    else if decide (e.key = target) && nsContains && wasPressed then false
    else nsContains
  if matchingKeys && (isPressed != wasPressed) then
    ({ st with
        phys_modifiers :=
          if isPressed then insertKey target st.phys_modifiers
          else removeKey target st.phys_modifiers
        modifiers := st.modifiers.setFamily fam nsContains },
      [Event.window (WindowEvent.KeyboardInput actualKey
        (if isPressed then ElementState.Pressed else ElementState.Released))])
  else (st, [])

/-- The `flagsChanged:` handler (`view.rs` lines 754-870): the eight macro
expansions in source order, followed by the unconditional
`ModifiersChanged(state.modifiers)` event. -/
def flags_changed (e : FlagsChangedEvent) (st : ViewState) : ViewState × List Event :=
  let r1 := process_event e ModFamily.shift KeyCode.ShiftLeft st
  let r2 := process_event e ModFamily.shift KeyCode.ShiftRight r1.1
  let r3 := process_event e ModFamily.control KeyCode.ControlLeft r2.1
  let r4 := process_event e ModFamily.control KeyCode.ControlRight r3.1
  let r5 := process_event e ModFamily.alt KeyCode.AltLeft r4.1
  let r6 := process_event e ModFamily.alt KeyCode.AltRight r5.1
  let r7 := process_event e ModFamily.command KeyCode.SuperLeft r6.1
  let r8 := process_event e ModFamily.command KeyCode.SuperRight r7.1
  (r8.1, r1.2 ++ r2.2 ++ r3.2 ++ r4.2 ++ r5.2 ++ r6.2 ++ r7.2 ++ r8.2
    ++ [Event.window (WindowEvent.ModifiersChanged r8.1.modifiers)])

/-- Replay a sequence of `flagsChanged:` callbacks, accumulating all queued
events in order. -/
def run_flags_changed (es : List FlagsChangedEvent) (st : ViewState) :
    ViewState × List Event :=
  es.foldl (fun acc e =>
    let r := flags_changed e acc.1
    (r.1, acc.2 ++ r.2)) (st, [])

/-- Number of queued synthetic key events for key `k` in state `s`. -/
def countKeyEvents (evs : List Event) (k : KeyCode) (s : ElementState) : Nat :=
  (evs.filter (fun ev => decide (ev = Event.window (WindowEvent.KeyboardInput k s)))).length

/-- Recognizes a `ModifiersChanged` window event. -/
def isModifiersChangedEvent : Event → Bool
  | Event.window (WindowEvent.ModifiersChanged _) => true
  | _ => false

/-- A no-op `flagsChanged:` callback: scancode `ShiftLeft`, no flag bits set,
arriving in the initial state (nothing pressed). -/
def c1_noop_event : FlagsChangedEvent :=
  { key := KeyCode.ShiftLeft, shiftFlag := false, controlFlag := false,
    optionFlag := false, commandFlag := false }

/-- The press half of the documented Ctrl+Space layout-switch quirk:
`ControlLeft` goes down with its own scancode. -/
def c2_press_event : FlagsChangedEvent :=
  { key := KeyCode.ControlLeft, shiftFlag := false, controlFlag := true,
    optionFlag := false, commandFlag := false }

/-- The release half of the quirk, as described by the comment in
`flags_changed`: the Control release arrives with `KeyA` as its keycode and
the Control flag cleared. -/
def c2_release_event : FlagsChangedEvent :=
  { key := KeyCode.KeyA, shiftFlag := false, controlFlag := false,
    optionFlag := false, commandFlag := false }

/-- A state in which `ControlLeft` is physically down, as recorded by the
state machine. -/
def c3_control_down_state : ViewState :=
  { initialViewState with
      modifiers := { control := true }
      phys_modifiers := [KeyCode.ControlLeft] }

/-- A `flagsChanged:` callback with the layout-switch generic keycode `KeyA`
and the Control flag set. -/
def c3_keya_event : FlagsChangedEvent :=
  { key := KeyCode.KeyA, shiftFlag := false, controlFlag := true,
    optionFlag := false, commandFlag := false }

/-- `is_corporate_character` (`view.rs` lines 617-631): the Apple corporate
private-use code points, per CORPCHAR.TXT. -/
def is_corporate_character (c : Char) : Bool :=
  (0xF700 ≤ c.toNat && c.toNat ≤ 0xF747)
    || (0xF802 ≤ c.toNat && c.toNat ≤ 0xF84F)
    || c.toNat == 0xF850
    || c.toNat == 0xF85C
    || c.toNat == 0xF85D
    || c.toNat == 0xF85F
    || (0xF860 ≤ c.toNat && c.toNat ≤ 0xF86B)
    || (0xF870 ≤ c.toNat && c.toNat ≤ 0xF8FF)

/-- `is_arrow_key` (`view.rs` lines 127-132). -/
def is_arrow_key (k : KeyCode) : Bool :=
  match k with
  | KeyCode.ArrowUp | KeyCode.ArrowDown | KeyCode.ArrowLeft | KeyCode.ArrowRight => true
  | _ => false

/-- `update_potentially_stale_modifiers` (`view.rs` lines 657-668): record the
event's modifier mask and queue `ModifiersChanged` only when it differs. -/
def update_potentially_stale_modifiers (st : ViewState) (m : ModifiersState) :
    ViewState × List Event :=
  if st.modifiers ≠ m then
    ({ st with modifiers := m }, [Event.window (WindowEvent.ModifiersChanged m)])
  else (st, [])

/-- `insert_text` (`view.rs` lines 517-557): filter the corporate characters
out of the committed string, mark a key as down, queue `ReceivedImeText`, and
leave pre-edit if it was active (also flagging that the key triggered IME).
Strings are modelled as `List Char`. -/
def insert_text (st : ViewState) (s : List Char) : ViewState × List Event :=
  let filtered := s.filter (fun c => !(is_corporate_character c))
  let st1 := { st with is_key_down := true }
  let st2 :=
    if st1.in_ime_preedit then
      { st1 with in_ime_preedit := false, key_triggered_ime := true }
    else st1
  (st2, [Event.window (WindowEvent.ReceivedImeText filtered)])

/-- A callback the native composition interpreter (`interpretKeyEvents`) may
invoke on the view: `setMarkedText:...` or `insertText:...`. -/
inductive ImeAct
  | setMarked
  | insertText (s : List Char)
deriving DecidableEq, Repr

/-- Effect of one interpreter callback on the view state and event queue:
`set_marked_text` (`view.rs` lines 425-456) replaces the marked text and sets
the pre-edit and key-triggered-IME flags; `insert_text` is as above. -/
def applyImeAct (acc : ViewState × List Event) (a : ImeAct) : ViewState × List Event :=
  match a with
  | ImeAct.setMarked =>
    ({ acc.1 with in_ime_preedit := true, key_triggered_ime := true }, acc.2)
  | ImeAct.insertText s =>
    let r := insert_text acc.1 s
    (r.1, acc.2 ++ r.2)

/-- Result of a `keyDown:` callback: the new state, the queued events in
order, whether `interpretKeyEvents` was invoked, and whether `unmarkText` was
sent (the force-cancel that discards the composition and notifies the input
context via `discardMarkedText`). -/
structure KeyDownResult where
  state : ViewState
  events : List Event
  interpreterInvoked : Bool
  unmarkSent : Bool
deriving DecidableEq, Repr

/-- `key_down` (`view.rs` lines 670-729). `imeActs` is the sequence of
interpreter callbacks `interpretKeyEvents` triggers when it is invoked (empty
when the key yields no composition activity). -/
def key_down (st0 : ViewState) (key : KeyCode) (is_repeat : Bool)
    (eventMods : ModifiersState) (imeActs : List ImeAct) : KeyDownResult :=
  let u := update_potentially_stale_modifiers st0 eventMods
  let stA := u.1
  let passAlong := !is_repeat || !stA.is_key_down
  let r :=
    if passAlong then
      imeActs.foldl applyImeAct ({ stA with key_triggered_ime := false }, [])
    else (stA, [])
  let st2 := r.1
  let cancel := passAlong && st2.in_ime_preedit && !st2.key_triggered_ime
    && !(is_arrow_key key)
  let st3 := if cancel then { st2 with in_ime_preedit := false } else st2
  { state := st3
    events := u.2 ++ r.2
      ++ [Event.window (WindowEvent.KeyboardInput key ElementState.Pressed)]
    interpreterInvoked := passAlong
    unmarkSent := cancel }

/-- `key_up` (`view.rs` lines 731-752). -/
def key_up (st : ViewState) (key : KeyCode) (eventMods : ModifiersState) :
    ViewState × List Event :=
  let st1 := { st with is_key_down := false }
  let u := update_potentially_stale_modifiers st1 eventMods
  (u.1, u.2 ++ [Event.window (WindowEvent.KeyboardInput key ElementState.Released)])

/-- Reach the counterexample state for C4 by replaying the model: a commit
leaves `is_key_down = true`; a following key press starts a pre-edit. -/
def c4_after_commit : ViewState :=
  (key_down initialViewState (KeyCode.other 0) false {} [ImeAct.insertText ['x']]).state

/-- State with an active composition while `is_key_down` is still set. -/
def c4_composing : ViewState :=
  (key_down c4_after_commit (KeyCode.other 1) false {} [ImeAct.setMarked]).state

/-- `mouse_click` (`view.rs` lines 923-942): refresh the modifier mask, then
queue a `MouseInput` event carrying the event's mask. -/
def mouse_click (st : ViewState) (button : MouseButton) (bstate : ElementState)
    (mods : ModifiersState) : ViewState × List Event :=
  let u := update_potentially_stale_modifiers st mods
  (u.1, u.2 ++ [Event.window (WindowEvent.MouseInput button bstate mods)])

/-- `mouse_motion` (`view.rs` lines 974-1012): view-local point `(vx, vy)`
(bottom-left origin) on a view of size `(w, h)`; `buttons` is
`NSEvent::pressedMouseButtons`. Outside the bounds with no buttons held the
callback returns early; otherwise the position is flipped to a top-left
origin, the modifier mask is refreshed, and a `CursorMoved` event is queued
at the logical position scaled by the backing scale factor. -/
def mouse_motion (st : ViewState) (vx vy w h : Rat) (buttons : Nat) (scale : Rat)
    (mods : ModifiersState) : ViewState × List Event :=
  if (vx < 0 ∨ vy < 0 ∨ vx > w ∨ vy > h) ∧ buttons = 0 then (st, [])
  else
    let x := vx
    let y := h - vy
    let u := update_potentially_stale_modifiers st mods
    (u.1, u.2 ++ [Event.window (WindowEvent.CursorMoved (x * scale) (y * scale) mods)])

/-- The `NSEventPhase` → `TouchPhase` mapping in `scroll_wheel`. -/
def phase_of (p : NSEventPhase) : TouchPhase :=
  match p with
  | NSEventPhase.MayBegin | NSEventPhase.Began => TouchPhase.Started
  | NSEventPhase.Ended => TouchPhase.Ended
  | _ => TouchPhase.Moved

/-- `scroll_wheel` (`view.rs` lines 1066-1115): run `mouse_motion` first,
negate the horizontal scrolling delta, pick the pixel-delta variant for
high-precision deltas (scaled to physical) and the line-delta variant
otherwise, refresh the modifier mask, then queue the device-level wheel
event followed by the window-level wheel event with the same delta. -/
def scroll_wheel (st : ViewState) (vx vy w h : Rat) (buttons : Nat) (scale : Rat)
    (dx dy : Rat) (precise : Bool) (ph : NSEventPhase) (mods : ModifiersState) :
    ViewState × List Event :=
  let mm := mouse_motion st vx vy w h buttons scale mods
  let x := dx * (-1)
  let y := dy
  let delta :=
    if precise then MouseScrollDelta.PixelDelta (x * scale) (y * scale)
    else MouseScrollDelta.LineDelta x y
  let phase := phase_of ph
  let u := update_potentially_stale_modifiers mm.1 mods
  (u.1, mm.2 ++ u.2
    ++ [Event.device (DeviceEvent.MouseWheel delta),
        Event.window (WindowEvent.MouseWheel delta phase mods)])

/-- `pressure_change_with_event` (`view.rs` lines 1117-1141): run
`mouse_motion` first, then queue a `TouchpadPressure` event. -/
def pressure_change_with_event (st : ViewState) (vx vy w h : Rat) (buttons : Nat)
    (scale : Rat) (pressure : Rat) (stage : Int) (mods : ModifiersState) :
    ViewState × List Event :=
  let mm := mouse_motion st vx vy w h buttons scale mods
  (mm.1, mm.2 ++ [Event.window (WindowEvent.TouchpadPressure pressure stage)])

/-- `EventLoopClosed` from `crate::event_loop`: the error returned by
`send_event`, carrying the un-sent payload. -/
structure EventLoopClosed (T : Type) where
  val : T
deriving DecidableEq, Repr

/-- State visible to an `EventLoopProxy` (`ios/event_loop.rs`): whether the
owning loop's channel receiver still exists, the queued payloads (wrapped
into `UserEvent` when drained by `handle_user_events`), and whether the
run-loop wake source has been signalled. -/
structure ProxyState (T : Type) where
  connected : Bool
  queue : List T
  wakeSignaled : Bool
deriving DecidableEq, Repr

/-- `EventLoopProxy::send_event` (`ios/event_loop.rs` lines 229-242): a send
on a disconnected channel returns `EventLoopClosed` with the payload and
performs no wake; a successful send appends the payload and then signals the
run-loop source and wakes the main run loop. -/
def send_event {T : Type} (p : ProxyState T) (v : T) :
    Except (EventLoopClosed T) Unit × ProxyState T :=
  if p.connected then
    (Except.ok (), { p with queue := p.queue ++ [v], wakeSignaled := true })
  else
    (Except.error ⟨v⟩, p)

/-- A window state whose recorded mask is stale (SHIFT set) relative to an
incoming event that carries an empty mask. -/
def c10_stale_state : ViewState :=
  { initialViewState with modifiers := { shift := true } }

theorem process_event_filter_mc (e : FlagsChangedEvent) (fam : ModFamily)
    (target : KeyCode) (st : ViewState) :
    ((process_event e fam target st).2).filter isModifiersChangedEvent = [] := by
  simp only [process_event]
  split_ifs <;> simp [isModifiersChangedEvent]

/-- Claim C1, counterexample: a `flagsChanged:` callback that leaves the net
modifier mask unchanged still enqueues a `ModifiersChanged` event, refuting
"a ModifiersChanged event is enqueued if and only if the net modifier mask
differs from the mask recorded before the callback" at this input. -/
theorem c1_noop_flags_still_emits_modifiers_changed :
    (flags_changed c1_noop_event initialViewState).1.modifiers
        = initialViewState.modifiers
      ∧ Event.window (WindowEvent.ModifiersChanged initialViewState.modifiers)
          ∈ (flags_changed c1_noop_event initialViewState).2 := by
  decide

/-- Claim C1, amended: every `flagsChanged:` callback enqueues exactly one
`ModifiersChanged` event — unconditionally, even when the net mask is
unchanged — and that event carries the net mask after processing all four
modifier families. -/
theorem c1_flags_changed_emits_exactly_one_modifiers_changed
    (e : FlagsChangedEvent) (st : ViewState) :
    ((flags_changed e st).2).filter isModifiersChangedEvent
      = [Event.window (WindowEvent.ModifiersChanged (flags_changed e st).1.modifiers)] := by
  simp [flags_changed, List.filter_append, process_event_filter_mc,
    isModifiersChangedEvent]

/-- Claim C2, evaluation at the failing input: after the documented
Ctrl+Space layout-switch sequence (press with scancode `ControlLeft`, release
with scancode `KeyA` and the Control flag cleared), the code has emitted one
press and zero releases for `ControlLeft`, and `ControlLeft` is still in
`phys_modifiers` (the CONTROL bit is also stuck in the mask): the macro
computes `was_pressed` against the unremapped `KeyA`, so the remap branch can
never emit a release. -/
theorem c2_layout_switch_release_leaves_control_stuck :
    countKeyEvents (run_flags_changed [c2_press_event, c2_release_event]
        initialViewState).2 KeyCode.ControlLeft ElementState.Pressed = 1
      ∧ countKeyEvents (run_flags_changed [c2_press_event, c2_release_event]
          initialViewState).2 KeyCode.ControlLeft ElementState.Released = 0
      ∧ KeyCode.ControlLeft
          ∈ (run_flags_changed [c2_press_event, c2_release_event]
              initialViewState).1.phys_modifiers
      ∧ (run_flags_changed [c2_press_event, c2_release_event]
          initialViewState).1.modifiers.control = true := by
  decide

/-- Claim C3, counterexample: with the Control flag bit set and `ControlLeft`
already recorded as down, the `KeyA`-remap expansion emits a `Pressed` event,
not the release the claim requires, and it emits even though the inferred
down/up state does not change (`ControlLeft` is in `phys_modifiers` both
before and after). -/
theorem c3_keya_remap_emits_press_for_held_key :
    familyBit c3_keya_event ModFamily.control = true
      ∧ KeyCode.ControlLeft ∈ c3_control_down_state.phys_modifiers
      ∧ (process_event c3_keya_event ModFamily.control KeyCode.ControlLeft
            c3_control_down_state).2
          = [Event.window (WindowEvent.KeyboardInput KeyCode.ControlLeft
              ElementState.Pressed)]
      ∧ KeyCode.ControlLeft
          ∈ (process_event c3_keya_event ModFamily.control KeyCode.ControlLeft
              c3_control_down_state).1.phys_modifiers := by
  decide

/-- Claim C3, amended: the press/release inference rules hold for every macro
expansion whose reported keycode is not the layout-switch generic keycode
(`KeyA`): flag set and key down means release; flag cleared and key down
means release; flag newly set and key up means press; no event on a no-op
report or a non-matching key; and an event is emitted only when the recorded
down/up state actually changes. -/
theorem c3_process_event_release_press_rules
    (e : FlagsChangedEvent) (fam : ModFamily) (target : KeyCode)
    (st : ViewState) (hk : e.key ≠ KeyCode.KeyA) :
    (e.key = target → familyBit e fam = true → target ∈ st.phys_modifiers →
        (process_event e fam target st).2
          = [Event.window (WindowEvent.KeyboardInput target ElementState.Released)])
      ∧ (e.key = target → familyBit e fam = false → target ∈ st.phys_modifiers →
          (process_event e fam target st).2
            = [Event.window (WindowEvent.KeyboardInput target ElementState.Released)])
      ∧ (e.key = target → familyBit e fam = true → target ∉ st.phys_modifiers →
          (process_event e fam target st).2
            = [Event.window (WindowEvent.KeyboardInput target ElementState.Pressed)])
      ∧ (e.key = target → familyBit e fam = false → target ∉ st.phys_modifiers →
          (process_event e fam target st).2 = [])
      ∧ (e.key ≠ target → (process_event e fam target st).2 = [])
      ∧ ((process_event e fam target st).2 ≠ [] →
          ((target ∈ (process_event e fam target st).1.phys_modifiers)
            ↔ ¬ (target ∈ st.phys_modifiers))) := by
  constructor
  · intro het hflag hdown
    subst het
    simp [process_event, hk, hflag, hdown, removeKey]
  constructor
  · intro het hflag hdown
    subst het
    simp [process_event, hk, hflag, hdown, removeKey]
  constructor
  · intro het hflag hdown
    subst het
    simp [process_event, hk, hflag, hdown, insertKey]
  constructor
  · intro het hflag hdown
    subst het
    simp [process_event, hk, hflag, hdown]
  constructor
  · intro het
    simp [process_event, hk, het]
  · intro hne
    by_cases het : e.key = target
    · subst het
      by_cases hdown : e.key ∈ st.phys_modifiers
        <;> by_cases hflag : familyBit e fam = true
        <;> simp_all [process_event, hk, insertKey, removeKey, List.mem_filter]
    · exact absurd (by simp [process_event, hk, het]) hne

/-- Claim C3, witness: the amended rules applied at a concrete input — a
`ShiftLeft` callback with the Shift bit set while nothing is down emits a
single press. -/
theorem c3_process_event_release_press_rules_witness :
    (process_event
        { key := KeyCode.ShiftLeft, shiftFlag := true, controlFlag := false,
          optionFlag := false, commandFlag := false }
        ModFamily.shift KeyCode.ShiftLeft initialViewState).2
      = [Event.window (WindowEvent.KeyboardInput KeyCode.ShiftLeft
          ElementState.Pressed)] :=
  (c3_process_event_release_press_rules
      { key := KeyCode.ShiftLeft, shiftFlag := true, controlFlag := false,
        optionFlag := false, commandFlag := false }
      ModFamily.shift KeyCode.ShiftLeft initialViewState
      (by decide)).2.2.1 rfl rfl (by decide)

/-- Claim C4, counterexample: a repeated non-arrow key-down that arrives
while the state is Composing and triggers no composition-interpreter callback
(it is suppressed, so the interpreter is not even invoked) does NOT
force-cancel the session: `in_ime_preedit` stays `true` and no `unmarkText`
is sent, contradicting "for any other such key the session is force-cancelled
and the state returns to Idle". The state is reachable: commit text (sets
`is_key_down`), then start a pre-edit with a second key, then repeat that
key. -/
theorem c4_suppressed_repeat_does_not_cancel_ime :
    c4_composing.in_ime_preedit = true
      ∧ c4_composing.is_key_down = true
      ∧ is_arrow_key (KeyCode.other 1) = false
      ∧ (key_down c4_composing (KeyCode.other 1) true {} []).interpreterInvoked = false
      ∧ (key_down c4_composing (KeyCode.other 1) true {} []).state.in_ime_preedit = true
      ∧ (key_down c4_composing (KeyCode.other 1) true {} []).unmarkSent = false := by
  decide

/-- Claim C4, amended: for every key-down callback that actually invokes the
composition interpreter (it is not suppressed as a repeat while a key is
held) and triggers no interpreter callback while the state is Composing:
an arrow key never force-cancels (the Composing flag stays set and no
`unmarkText` discard is sent), and any other key force-cancels the session
(`unmarkText` is sent and the state returns to Idle). -/
theorem c4_key_down_ime_cancel_rules
    (st : ViewState) (key : KeyCode) (is_repeat : Bool) (mods : ModifiersState)
    (hpass : is_repeat = false ∨ st.is_key_down = false)
    (hcomp : st.in_ime_preedit = true) :
    (is_arrow_key key = true →
        (key_down st key is_repeat mods []).state.in_ime_preedit = true
          ∧ (key_down st key is_repeat mods []).unmarkSent = false)
      ∧ (is_arrow_key key = false →
          (key_down st key is_repeat mods []).state.in_ime_preedit = false
            ∧ (key_down st key is_repeat mods []).unmarkSent = true) := by
  have hu : (update_potentially_stale_modifiers st mods).1.in_ime_preedit
      = st.in_ime_preedit := by
    unfold update_potentially_stale_modifiers
    split <;> rfl
  have hk : (update_potentially_stale_modifiers st mods).1.is_key_down
      = st.is_key_down := by
    unfold update_potentially_stale_modifiers
    split <;> rfl
  have hp : (!is_repeat || !(update_potentially_stale_modifiers st mods).1.is_key_down)
      = true := by
    rcases hpass with h | h <;> simp [hk, h]
  constructor
  · intro ha
    simp [key_down, List.foldl, hp, ha, hu, hcomp]
  · intro ha
    simp [key_down, List.foldl, hp, ha, hu, hcomp]

/-- Claim C4, witness: the amended rules at concrete inputs — an arrow key
leaves a fresh Composing state composing. -/
theorem c4_key_down_ime_cancel_rules_witness :
    (key_down { initialViewState with in_ime_preedit := true }
        KeyCode.ArrowUp false {} []).state.in_ime_preedit = true
      ∧ (key_down { initialViewState with in_ime_preedit := true }
          KeyCode.ArrowUp false {} []).unmarkSent = false :=
  (c4_key_down_ime_cancel_rules
      { initialViewState with in_ime_preedit := true }
      KeyCode.ArrowUp false {} (Or.inl rfl) rfl).1 rfl

/-- Claim C5: for every commit-text callback, the queued `ReceivedImeText`
event carries exactly the input with the corporate (vendor private-use)
characters removed — so it contains no such character, is an in-order
subsequence of the input — and the composition state is Idle afterwards. -/
theorem c5_insert_text_filters_corporate_chars (st : ViewState) (s : List Char) :
    (insert_text st s).2
        = [Event.window (WindowEvent.ReceivedImeText
            (s.filter (fun c => !(is_corporate_character c))))]
      ∧ (s.filter (fun c => !(is_corporate_character c))).all
          (fun c => !(is_corporate_character c)) = true
      ∧ (s.filter (fun c => !(is_corporate_character c))).Sublist s
      ∧ (insert_text st s).1.in_ime_preedit = false := by
  refine ⟨?_, ?_, List.filter_sublist s, ?_⟩
  · simp [insert_text]
  · simp [List.all_eq_true]
  · by_cases h : st.in_ime_preedit <;> simp [insert_text, h]

/-- Claim C6: a key-down marked as a repeat while the key-down flag is set
does not re-invoke the composition interpreter; every key-down (repeat or
not) still enqueues a canonical `KeyboardInput` event, and so does every
key-up. -/
theorem c6_key_repeat_interpreter_suppression
    (st : ViewState) (key : KeyCode) (is_repeat : Bool) (mods : ModifiersState)
    (imeActs : List ImeAct) :
    (is_repeat = true → st.is_key_down = true →
        (key_down st key is_repeat mods imeActs).interpreterInvoked = false)
      ∧ Event.window (WindowEvent.KeyboardInput key ElementState.Pressed)
          ∈ (key_down st key is_repeat mods imeActs).events
      ∧ Event.window (WindowEvent.KeyboardInput key ElementState.Released)
          ∈ (key_up st key mods).2 := by
  have hk : (update_potentially_stale_modifiers st mods).1.is_key_down
      = st.is_key_down := by
    unfold update_potentially_stale_modifiers
    split <;> rfl
  refine ⟨?_, ?_, ?_⟩
  · intro hr hd
    simp [key_down, hk, hr, hd]
  · simp [key_down]
  · simp [key_up]

/-- Claim C6, witness: the suppression and the canonical events at concrete
inputs. -/
theorem c6_key_repeat_interpreter_suppression_witness :
    (key_down { initialViewState with is_key_down := true }
        (KeyCode.other 7) true {} [ImeAct.setMarked]).interpreterInvoked = false
      ∧ Event.window (WindowEvent.KeyboardInput (KeyCode.other 7) ElementState.Pressed)
          ∈ (key_down { initialViewState with is_key_down := true }
              (KeyCode.other 7) true {} [ImeAct.setMarked]).events :=
  ⟨(c6_key_repeat_interpreter_suppression
      { initialViewState with is_key_down := true }
      (KeyCode.other 7) true {} [ImeAct.setMarked]).1 rfl rfl,
    (c6_key_repeat_interpreter_suppression
      { initialViewState with is_key_down := true }
      (KeyCode.other 7) true {} [ImeAct.setMarked]).2.1⟩

theorem update_fst (st : ViewState) (m : ModifiersState) :
    (update_potentially_stale_modifiers st m).1 = { st with modifiers := m } := by
  unfold update_potentially_stale_modifiers
  split <;> rename_i h
  · rfl
  · cases st
    simp_all

theorem update_any_mc (st : ViewState) (m : ModifiersState) :
    (update_potentially_stale_modifiers st m).2.any isModifiersChangedEvent
      = decide (st.modifiers ≠ m) := by
  unfold update_potentially_stale_modifiers
  split <;> simp_all [isModifiersChangedEvent]

theorem insert_text_fst_modifiers (st : ViewState) (s : List Char) :
    (insert_text st s).1.modifiers = st.modifiers := by
  by_cases h : st.in_ime_preedit <;> simp [insert_text, h]

theorem insert_text_snd (st : ViewState) (s : List Char) :
    (insert_text st s).2
      = [Event.window (WindowEvent.ReceivedImeText
          (s.filter (fun c => !(is_corporate_character c))))] := by
  by_cases h : st.in_ime_preedit <;> simp [insert_text, h]

theorem imeFold_modifiers (acts : List ImeAct) (st : ViewState) (evs : List Event) :
    ((acts.foldl applyImeAct (st, evs)).1).modifiers = st.modifiers := by
  induction acts generalizing st evs with
  | nil => rfl
  | cons a as ih =>
    cases a with
    | setMarked =>
      rw [List.foldl_cons]
      simpa [applyImeAct] using ih _ _
    | insertText s =>
      rw [List.foldl_cons]
      simp only [applyImeAct]
      rw [ih]
      exact insert_text_fst_modifiers st s

theorem imeFold_any_mc (acts : List ImeAct) (st : ViewState) (evs : List Event) :
    ((acts.foldl applyImeAct (st, evs)).2).any isModifiersChangedEvent
      = evs.any isModifiersChangedEvent := by
  induction acts generalizing st evs with
  | nil => rfl
  | cons a as ih =>
    cases a with
    | setMarked =>
      rw [List.foldl_cons]
      exact ih _ _
    | insertText s =>
      rw [List.foldl_cons]
      simp only [applyImeAct]
      rw [ih, insert_text_snd]
      simp [isModifiersChangedEvent]

theorem mouse_motion_suppressed (st : ViewState) (vx vy w h : Rat) (buttons : Nat)
    (scale : Rat) (mods : ModifiersState)
    (hs : (vx < 0 ∨ vy < 0 ∨ vx > w ∨ vy > h) ∧ buttons = 0) :
    mouse_motion st vx vy w h buttons scale mods = (st, []) := by
  simp [mouse_motion, hs]

theorem mouse_motion_active (st : ViewState) (vx vy w h : Rat) (buttons : Nat)
    (scale : Rat) (mods : ModifiersState)
    (hs : ¬ ((vx < 0 ∨ vy < 0 ∨ vx > w ∨ vy > h) ∧ buttons = 0)) :
    mouse_motion st vx vy w h buttons scale mods
      = ((update_potentially_stale_modifiers st mods).1,
          (update_potentially_stale_modifiers st mods).2
            ++ [Event.window (WindowEvent.CursorMoved (vx * scale)
                ((h - vy) * scale) mods)]) := by
  simp [mouse_motion, hs]

/-- Claim C7: motion at view-local `(-5, 10)` on a `(100, 100)` view with no
buttons held queues nothing; the same position with a button held queues a
`CursorMoved` at the unclipped logical position, flipped to a top-left
origin and scaled by the backing scale factor; and in general motion outside
the bounds with no buttons held queues nothing. -/
theorem c7_mouse_motion_bounds_suppression
    (st : ViewState) (scale : Rat) (mods : ModifiersState) :
    (mouse_motion st (-5) 10 100 100 0 scale mods).2 = []
      ∧ Event.window (WindowEvent.CursorMoved ((-5) * scale) (90 * scale) mods)
          ∈ (mouse_motion st (-5) 10 100 100 1 scale mods).2
      ∧ (∀ vx vy w h : Rat, (vx < 0 ∨ vy < 0 ∨ vx > w ∨ vy > h) →
          (mouse_motion st vx vy w h 0 scale mods).2 = []) := by
  refine ⟨?_, ?_, ?_⟩
  · rw [mouse_motion_suppressed]
    norm_num
  · rw [mouse_motion_active]
    · norm_num
    · norm_num
  · intro vx vy w h hout
    rw [mouse_motion_suppressed]
    exact ⟨hout, rfl⟩

/-- Claim C7, witness: the suppression applied at a concrete outside
position. -/
theorem c7_mouse_motion_bounds_suppression_witness :
    (mouse_motion initialViewState 3 (-1) 2 2 0 1 {}).2 = [] :=
  (c7_mouse_motion_bounds_suppression initialViewState 1 {}).2.2 3 (-1) 2 2
    (Or.inr (Or.inr (Or.inl (by norm_num))))

/-- Claim C8: a scroll with `scrollingDeltaX = 3`, `scrollingDeltaY = -2`,
precise = false queues wheel events carrying `LineDelta (-3, -2)` (the
horizontal axis negated, the vertical unchanged); in general the non-precise
variant is `LineDelta (-dx, dy)`, the precise variant is
`PixelDelta (-dx * scale, dy * scale)`, and every scroll callback queues a
device-level and a window-level wheel event, adjacent and carrying the same
delta. -/
theorem c8_scroll_wheel_delta_normalization
    (st : ViewState) (vx vy w h : Rat) (buttons : Nat) (scale : Rat)
    (dx dy : Rat) (precise : Bool) (ph : NSEventPhase) (mods : ModifiersState) :
    (∃ pre, (scroll_wheel st vx vy w h buttons scale 3 (-2) false ph mods).2
        = pre ++ [Event.device (DeviceEvent.MouseWheel
              (MouseScrollDelta.LineDelta (-3) (-2))),
            Event.window (WindowEvent.MouseWheel
              (MouseScrollDelta.LineDelta (-3) (-2)) (phase_of ph) mods)])
      ∧ (∃ d pre, (scroll_wheel st vx vy w h buttons scale dx dy precise ph mods).2
          = pre ++ [Event.device (DeviceEvent.MouseWheel d),
              Event.window (WindowEvent.MouseWheel d (phase_of ph) mods)]
          ∧ (precise = false → d = MouseScrollDelta.LineDelta (-dx) dy)
          ∧ (precise = true →
              d = MouseScrollDelta.PixelDelta (-dx * scale) (dy * scale))) := by
  constructor
  · refine ⟨(mouse_motion st vx vy w h buttons scale mods).2
        ++ (update_potentially_stale_modifiers
            (mouse_motion st vx vy w h buttons scale mods).1 mods).2, ?_⟩
    simp [scroll_wheel]
  · refine ⟨(if precise then
          MouseScrollDelta.PixelDelta (dx * (-1) * scale) (dy * scale)
        else MouseScrollDelta.LineDelta (dx * (-1)) dy),
      (mouse_motion st vx vy w h buttons scale mods).2
        ++ (update_potentially_stale_modifiers
            (mouse_motion st vx vy w h buttons scale mods).1 mods).2, ?_, ?_, ?_⟩
    · simp [scroll_wheel]
    · intro hp
      simp [hp, mul_neg_one]
    · intro hp
      simp [hp, mul_neg_one]

/-- Claim C8, witness: the general delta shape applied at a concrete
non-precise scroll. -/
theorem c8_scroll_wheel_delta_normalization_witness :
    ∃ pre, (scroll_wheel initialViewState 1 1 2 2 0 1 4 5 false
        NSEventPhase.NoPhase {}).2
      = pre ++ [Event.device (DeviceEvent.MouseWheel
            (MouseScrollDelta.LineDelta (-4) 5)),
          Event.window (WindowEvent.MouseWheel (MouseScrollDelta.LineDelta (-4) 5)
            (phase_of NSEventPhase.NoPhase) {})] := by
  obtain ⟨d, pre, heq, hline, -⟩ :=
    (c8_scroll_wheel_delta_normalization initialViewState 1 1 2 2 0 1 4 5 false
      NSEventPhase.NoPhase {}).2
  exact ⟨pre, by rw [heq, hline rfl]⟩

/-- Claim C9: `send_event` on a proxy whose owning loop no longer exists
returns the closed error carrying exactly the un-sent value and changes
nothing (in particular the value is not dropped); when the loop exists it
appends the value to the user-event channel, signals the run-loop wake
source, and returns ok. -/
theorem c9_send_event_closed_returns_payload {T : Type} (p : ProxyState T) (v : T) :
    (p.connected = false → send_event p v = (Except.error ⟨v⟩, p))
      ∧ (p.connected = true →
          (send_event p v).1 = Except.ok ()
            ∧ (send_event p v).2.queue = p.queue ++ [v]
            ∧ (send_event p v).2.wakeSignaled = true) := by
  constructor
  · intro h
    simp [send_event, h]
  · intro h
    simp [send_event, h]

/-- Claim C9, witness: both branches at concrete inputs. -/
theorem c9_send_event_closed_returns_payload_witness :
    send_event (T := Nat) ⟨false, [], false⟩ 7 = (Except.error ⟨7⟩, ⟨false, [], false⟩)
      ∧ (send_event (T := Nat) ⟨true, [1], false⟩ 7).2.queue = [1, 7] :=
  ⟨(c9_send_event_closed_returns_payload ⟨false, [], false⟩ 7).1 rfl,
    ((c9_send_event_closed_returns_payload ⟨true, [1], false⟩ 7).2 rfl).2.1⟩

/-- Claim C10, counterexample: a pointer-motion callback outside the view
bounds with no buttons held returns early, so the recorded mask stays stale
(it still differs from the mask carried by the event) and no
`ModifiersChanged` is queued — refuting "for every ... pointer motion ...
after the callback the per-window recorded modifier mask equals the mask
carried by the native event". -/
theorem c10_suppressed_motion_leaves_stale_modifiers :
    (mouse_motion c10_stale_state (-5) 10 100 100 0 1 {}).1.modifiers
        ≠ ({} : ModifiersState)
      ∧ (mouse_motion c10_stale_state (-5) 10 100 100 0 1 {}).2 = [] := by
  constructor
  · rw [mouse_motion_suppressed _ _ _ _ _ _ _ _ ⟨Or.inl (by norm_num), rfl⟩]
    decide
  · rw [mouse_motion_suppressed _ _ _ _ _ _ _ _ ⟨Or.inl (by norm_num), rfl⟩]

theorem key_down_state_modifiers (st : ViewState) (key : KeyCode) (r : Bool)
    (mods : ModifiersState) (acts : List ImeAct) :
    (key_down st key r mods acts).state.modifiers = mods := by
  simp only [key_down]
  split_ifs <;> simp [imeFold_modifiers, update_fst]

theorem key_down_events_mc (st : ViewState) (key : KeyCode) (r : Bool)
    (mods : ModifiersState) (acts : List ImeAct) :
    ((key_down st key r mods acts).events.any isModifiersChangedEvent = true
      ↔ st.modifiers ≠ mods) := by
  simp only [key_down]
  split_ifs <;>
    simp [List.any_append, imeFold_any_mc, update_any_mc, isModifiersChangedEvent]

/-- Claim C10, amended: for key-down, key-up, mouse-click and scroll
callbacks, and for pointer-motion callbacks that are not suppressed, the
recorded mask equals the event's mask after the callback and a
`ModifiersChanged` event is queued exactly when the recorded mask differed
beforehand; a pointer-motion callback suppressed for being outside the
bounds with no buttons held (and the motion processing embedded in a
touchpad-pressure callback, likewise suppressed) leaves the mask unchanged
and queues no `ModifiersChanged`. -/
theorem c10_modifier_mask_sync_rules
    (st : ViewState) (key : KeyCode) (is_repeat : Bool) (acts : List ImeAct)
    (button : MouseButton) (bstate : ElementState)
    (vx vy w h scale dx dy pr : Rat) (stg : Int) (buttons : Nat)
    (precise : Bool) (ph : NSEventPhase) (mods : ModifiersState) :
    ((key_down st key is_repeat mods acts).state.modifiers = mods
        ∧ ((key_down st key is_repeat mods acts).events.any isModifiersChangedEvent
              = true
            ↔ st.modifiers ≠ mods))
      ∧ ((key_up st key mods).1.modifiers = mods
          ∧ ((key_up st key mods).2.any isModifiersChangedEvent = true
              ↔ st.modifiers ≠ mods))
      ∧ ((mouse_click st button bstate mods).1.modifiers = mods
          ∧ ((mouse_click st button bstate mods).2.any isModifiersChangedEvent = true
              ↔ st.modifiers ≠ mods))
      ∧ ((scroll_wheel st vx vy w h buttons scale dx dy precise ph mods).1.modifiers
            = mods
          ∧ ((scroll_wheel st vx vy w h buttons scale dx dy precise ph
                mods).2.any isModifiersChangedEvent = true
              ↔ st.modifiers ≠ mods))
      ∧ (¬ ((vx < 0 ∨ vy < 0 ∨ vx > w ∨ vy > h) ∧ buttons = 0) →
          (mouse_motion st vx vy w h buttons scale mods).1.modifiers = mods
            ∧ ((mouse_motion st vx vy w h buttons scale
                  mods).2.any isModifiersChangedEvent = true
                ↔ st.modifiers ≠ mods))
      ∧ (((vx < 0 ∨ vy < 0 ∨ vx > w ∨ vy > h) ∧ buttons = 0) →
          mouse_motion st vx vy w h buttons scale mods = (st, [])
            ∧ pressure_change_with_event st vx vy w h buttons scale pr stg mods
                = (st, [Event.window (WindowEvent.TouchpadPressure pr stg)])) := by
  refine ⟨⟨key_down_state_modifiers st key is_repeat mods acts,
      key_down_events_mc st key is_repeat mods acts⟩, ?_, ?_, ?_, ?_, ?_⟩
  · constructor
    · simp [key_up, update_fst]
    · simp [key_up, List.any_append, update_any_mc, isModifiersChangedEvent]
  · constructor
    · simp [mouse_click, update_fst]
    · simp [mouse_click, List.any_append, update_any_mc, isModifiersChangedEvent]
  · constructor
    · simp [scroll_wheel, update_fst]
    · by_cases hs : ((vx < 0 ∨ vy < 0 ∨ vx > w ∨ vy > h) ∧ buttons = 0)
      · simp [scroll_wheel, mouse_motion_suppressed st vx vy w h buttons scale mods hs,
          List.any_append, update_any_mc, isModifiersChangedEvent]
      · simp [scroll_wheel, mouse_motion_active st vx vy w h buttons scale mods hs,
          List.any_append, update_any_mc, update_fst, isModifiersChangedEvent]
  · intro hs
    constructor
    · simp [mouse_motion_active st vx vy w h buttons scale mods hs, update_fst]
    · simp [mouse_motion_active st vx vy w h buttons scale mods hs,
        List.any_append, update_any_mc, isModifiersChangedEvent]
  · intro hs
    constructor
    · exact mouse_motion_suppressed st vx vy w h buttons scale mods hs
    · simp [pressure_change_with_event,
        mouse_motion_suppressed st vx vy w h buttons scale mods hs]

/-- Claim C10, witness: the amended rules at a concrete mouse click that
carries a mask differing from the recorded one. -/
theorem c10_modifier_mask_sync_rules_witness :
    (mouse_click c10_stale_state MouseButton.Left ElementState.Pressed
        {}).1.modifiers = ({} : ModifiersState)
      ∧ (mouse_click c10_stale_state MouseButton.Left ElementState.Pressed
          {}).2.any isModifiersChangedEvent = true :=
  ⟨((c10_modifier_mask_sync_rules c10_stale_state (KeyCode.other 0) false []
        MouseButton.Left ElementState.Pressed 0 0 0 0 1 0 0 0 0 0 false
        NSEventPhase.NoPhase {}).2.2.1).1,
    ((c10_modifier_mask_sync_rules c10_stale_state (KeyCode.other 0) false []
        MouseButton.Left ElementState.Pressed 0 0 0 0 1 0 0 0 0 0 false
        NSEventPhase.NoPhase {}).2.2.1).2.mpr (by decide)⟩

end Tao
